import Mathlib

/-!
Shallow embedding of `src/optimize.py` from the `ipo_decision_calculator`
repository.  Real-valued quantities are modelled as rationals.  The mixed
integer linear program built by `optimize_scenario` is modelled by a
feasibility predicate over assignments of its five decision variables
together with its linear objective; the external CBC solver is modelled by
the set of optimal feasible assignments, plus a soundness contract on the
status code it reports.
-/

namespace Optimize

/-- Inputs of `optimize_scenario` (src/optimize.py, lines 21-34), one field
per parameter, in source order. -/
structure ScenarioInputs where
  rate_of_return_6m : ℚ
  rate_of_return_12m : ℚ
  rsu_witholding_rate : ℚ
  current_state_ltcg_tax_rate : ℚ
  current_state_stcg_tax_rate : ℚ
  new_state_ltcg_tax_rate : ℚ
  new_state_stcg_tax_rate : ℚ
  federal_ltcg_tax_rate : ℚ
  federal_stcg_tax_rate : ℚ
  share_basis_price : ℚ
  pre_tax_num_shares : ℚ
  alternate_investment_rate_of_return : ℚ
  moving_costs : ℚ
deriving DecidableEq, Repr

/-- Values of the five decision variables of the model
(src/optimize.py, lines 48-54). -/
structure Assignment where
  current_state_stcg_num_shares : ℚ
  current_state_ltcg_num_shares : ℚ
  new_state_stcg_num_shares : ℚ
  new_state_ltcg_num_shares : ℚ
  is_moving : ℚ
deriving DecidableEq, Repr

/-- Derived input `post_tax_num_shares` (src/optimize.py, line 42). -/
def post_tax_num_shares (i : ScenarioInputs) : ℚ :=
  i.pre_tax_num_shares * (1 - i.rsu_witholding_rate)

/-- Feasibility of an assignment for the model built by
`optimize_scenario`: the variable bounds of lines 48-54 (the
`is_moving` variable is integral in [0,1], hence 0 or 1), the share
conservation equality `total_shares_sum` of lines 74-76, and the two
indicator coupling inequalities `new_state_shares_sold_dependency` and
`new_state_shares_sold_flag` of lines 79-82. -/
def Feasible (i : ScenarioInputs) (a : Assignment) : Prop :=
  0 ≤ a.current_state_stcg_num_shares ∧
  a.current_state_stcg_num_shares ≤ post_tax_num_shares i ∧
  0 ≤ a.current_state_ltcg_num_shares ∧
  a.current_state_ltcg_num_shares ≤ post_tax_num_shares i ∧
  0 ≤ a.new_state_stcg_num_shares ∧
  a.new_state_stcg_num_shares ≤ post_tax_num_shares i ∧
  0 ≤ a.new_state_ltcg_num_shares ∧
  a.new_state_ltcg_num_shares ≤ post_tax_num_shares i ∧
  (a.is_moving = 0 ∨ a.is_moving = 1) ∧
  post_tax_num_shares i
    = a.current_state_stcg_num_shares + a.current_state_ltcg_num_shares
      + a.new_state_stcg_num_shares + a.new_state_ltcg_num_shares ∧
  a.is_moving ≤ a.new_state_stcg_num_shares + a.new_state_ltcg_num_shares ∧
  a.new_state_stcg_num_shares + a.new_state_ltcg_num_shares
    ≤ a.is_moving * post_tax_num_shares i

/-- Derived price `short_term_price` (src/optimize.py, line 57). -/
def short_term_price (i : ScenarioInputs) : ℚ :=
  i.share_basis_price * i.rate_of_return_6m

/-- Derived price `long_term_price` (src/optimize.py, line 58). -/
def long_term_price (i : ScenarioInputs) : ℚ :=
  short_term_price i * i.rate_of_return_12m

/-- Capital gain `current_state_stcg` (src/optimize.py, line 59). -/
def current_state_stcg (i : ScenarioInputs) (a : Assignment) : ℚ :=
  a.current_state_stcg_num_shares * (short_term_price i - i.share_basis_price)

/-- Capital gain `current_state_ltcg` (src/optimize.py, line 60). -/
def current_state_ltcg (i : ScenarioInputs) (a : Assignment) : ℚ :=
  a.current_state_ltcg_num_shares * (long_term_price i - i.share_basis_price)

/-- Capital gain `new_state_stcg` (src/optimize.py, line 61). -/
def new_state_stcg (i : ScenarioInputs) (a : Assignment) : ℚ :=
  a.new_state_stcg_num_shares * (short_term_price i - i.share_basis_price)

/-- Capital gain `new_state_ltcg` (src/optimize.py, line 62). -/
def new_state_ltcg (i : ScenarioInputs) (a : Assignment) : ℚ :=
  a.new_state_ltcg_num_shares * (long_term_price i - i.share_basis_price)

/-- Proceeds `current_state_short_term_proceeds` (src/optimize.py, line 63). -/
def current_state_short_term_proceeds (i : ScenarioInputs) (a : Assignment) : ℚ :=
  a.current_state_stcg_num_shares * short_term_price i

/-- Opportunity gain `current_state_alternate_investment_gain`
(src/optimize.py, lines 64-65). -/
def current_state_alternate_investment_gain (i : ScenarioInputs) (a : Assignment) : ℚ :=
  current_state_short_term_proceeds i a * i.alternate_investment_rate_of_return
    - current_state_short_term_proceeds i a

/-- Proceeds `new_state_short_term_proceeds` (src/optimize.py, line 66). -/
def new_state_short_term_proceeds (i : ScenarioInputs) (a : Assignment) : ℚ :=
  a.new_state_stcg_num_shares * short_term_price i

/-- Opportunity gain `new_state_alternate_investment_gain`
(src/optimize.py, lines 67-68). -/
def new_state_alternate_investment_gain (i : ScenarioInputs) (a : Assignment) : ℚ :=
  new_state_short_term_proceeds i a * i.alternate_investment_rate_of_return
    - new_state_short_term_proceeds i a

/-- Sum `total_capital_gains` (src/optimize.py, lines 69-70). -/
def total_capital_gains (i : ScenarioInputs) (a : Assignment) : ℚ :=
  current_state_stcg i a + new_state_stcg i a + current_state_ltcg i a
    + new_state_ltcg i a + current_state_alternate_investment_gain i a
    + new_state_alternate_investment_gain i a

/-- Gross capital `post_tax_capital` (src/optimize.py, line 71). -/
def post_tax_capital (i : ScenarioInputs) : ℚ :=
  post_tax_num_shares i * i.share_basis_price

/-- Objective `total_earnings` maximized by the model
(src/optimize.py, lines 85-93). -/
def total_earnings (i : ScenarioInputs) (a : Assignment) : ℚ :=
  (post_tax_capital i + total_capital_gains i a)
    - current_state_stcg i a * (i.federal_stcg_tax_rate + i.current_state_stcg_tax_rate)
    - current_state_ltcg i a * (i.federal_ltcg_tax_rate + i.current_state_ltcg_tax_rate)
    - new_state_stcg i a * (i.federal_stcg_tax_rate + i.new_state_stcg_tax_rate)
    - new_state_ltcg i a * (i.federal_ltcg_tax_rate + i.new_state_ltcg_tax_rate)
    - current_state_alternate_investment_gain i a
        * (i.federal_stcg_tax_rate + i.current_state_stcg_tax_rate)
    - new_state_alternate_investment_gain i a
        * (i.federal_stcg_tax_rate + i.new_state_stcg_tax_rate)
    - i.moving_costs * a.is_moving

/-- Optimality of an assignment: feasible, and of maximal objective value
among all feasible assignments.  The model is built with sense
`LpMaximize` (src/optimize.py, line 45), and the CBC status `1` means an
optimal assignment was found. -/
def IsOptimal (i : ScenarioInputs) (a : Assignment) : Prop :=
  Feasible i a ∧ ∀ b : Assignment, Feasible i b → total_earnings i b ≤ total_earnings i a

/-- Bounds of one `LpVariable` as passed to the model
(src/optimize.py, lines 48-54). -/
structure VarBounds where
  lowBound : ℚ
  upBound : ℚ
deriving DecidableEq, Repr

/-- Bounds of the five variables of the model handle that
`optimize_scenario` constructs before calling the solver
(src/optimize.py, lines 45-54).  The source constructs them
unconditionally, performing no validation of the inputs. -/
structure LpModelVars where
  current_state_stcg_num_shares : VarBounds
  current_state_ltcg_num_shares : VarBounds
  new_state_stcg_num_shares : VarBounds
  new_state_ltcg_num_shares : VarBounds
  is_moving : VarBounds
deriving DecidableEq, Repr

/-- Variable construction stage of `optimize_scenario`
(src/optimize.py, lines 48-54): each share-count variable gets
`lowBound=0` and `upBound=post_tax_num_shares`, and `is_moving` gets
bounds 0 and 1.  A total function: the source has no error path here. -/
def build_model (i : ScenarioInputs) : LpModelVars :=
  { current_state_stcg_num_shares := ⟨0, post_tax_num_shares i⟩
    current_state_ltcg_num_shares := ⟨0, post_tax_num_shares i⟩
    new_state_stcg_num_shares := ⟨0, post_tax_num_shares i⟩
    new_state_ltcg_num_shares := ⟨0, post_tax_num_shares i⟩
    is_moving := ⟨0, 1⟩ }

/-- Result record returned by `optimize_scenario` on a successful solve
(src/optimize.py, lines 111-119): the derived prices, the two input
multipliers, the objective value and every variable's value. -/
structure SolveResult where
  short_term_price : ℚ
  long_term_price : ℚ
  rate_of_return_6m : ℚ
  rate_of_return_12m : ℚ
  objective : ℚ
  current_state_stcg_num_shares : ℚ
  current_state_ltcg_num_shares : ℚ
  new_state_stcg_num_shares : ℚ
  new_state_ltcg_num_shares : ℚ
  is_moving : ℚ
deriving DecidableEq, Repr

/-- Construction of the `results` dict (src/optimize.py, lines 111-119)
from the inputs and the solver's variable assignment. -/
def extract_results (i : ScenarioInputs) (a : Assignment) : SolveResult :=
  { short_term_price := short_term_price i
    long_term_price := long_term_price i
    rate_of_return_6m := i.rate_of_return_6m
    rate_of_return_12m := i.rate_of_return_12m
    objective := total_earnings i a
    current_state_stcg_num_shares := a.current_state_stcg_num_shares
    current_state_ltcg_num_shares := a.current_state_ltcg_num_shares
    new_state_stcg_num_shares := a.new_state_stcg_num_shares
    new_state_ltcg_num_shares := a.new_state_ltcg_num_shares
    is_moving := a.is_moving }

/-- Post-solve step of `optimize_scenario` (src/optimize.py, lines
98-121): given the status code returned by the solver and its variable
assignment, raise `Exception("No solution for scenario")` unless the
status is 1 (optimal), otherwise return the result record.  The raise is
modelled as `Except.error` carrying the exception's message string. -/
def check_solve (i : ScenarioInputs) (status : Int) (a : Assignment) :
    Except String SolveResult :=
  if status ≠ 1 then Except.error "No solution for scenario"
  else Except.ok (extract_results i a)

/-- Soundness contract for the external CBC solver, treated as a black
box: if it reports status 1 (optimal) with assignment `a`, then `a` is a
feasible assignment of maximal objective value. -/
def SolverSound (i : ScenarioInputs) (status : Int) (a : Assignment) : Prop :=
  status = 1 → IsOptimal i a

/-- Objective coefficient of `current_state_stcg_num_shares` in
`total_earnings`, obtained by collecting terms of lines 57-93. -/
def coef_current_stcg (i : ScenarioInputs) : ℚ :=
  ((short_term_price i - i.share_basis_price)
      + short_term_price i * (i.alternate_investment_rate_of_return - 1))
    * (1 - i.federal_stcg_tax_rate - i.current_state_stcg_tax_rate)

/-- Objective coefficient of `current_state_ltcg_num_shares` in
`total_earnings`. -/
def coef_current_ltcg (i : ScenarioInputs) : ℚ :=
  (long_term_price i - i.share_basis_price)
    * (1 - i.federal_ltcg_tax_rate - i.current_state_ltcg_tax_rate)

/-- Objective coefficient of `new_state_stcg_num_shares` in
`total_earnings`. -/
def coef_new_stcg (i : ScenarioInputs) : ℚ :=
  ((short_term_price i - i.share_basis_price)
      + short_term_price i * (i.alternate_investment_rate_of_return - 1))
    * (1 - i.federal_stcg_tax_rate - i.new_state_stcg_tax_rate)

/-- Objective coefficient of `new_state_ltcg_num_shares` in
`total_earnings`. -/
def coef_new_ltcg (i : ScenarioInputs) : ℚ :=
  (long_term_price i - i.share_basis_price)
    * (1 - i.federal_ltcg_tax_rate - i.new_state_ltcg_tax_rate)

/-- Linear form of the objective: `total_earnings` is the gross
post-withholding capital plus a fixed coefficient times each share-count
variable, minus the moving costs times the indicator. -/
theorem total_earnings_linear (i : ScenarioInputs) (a : Assignment) :
    total_earnings i a
      = post_tax_capital i
        + coef_current_stcg i * a.current_state_stcg_num_shares
        + coef_current_ltcg i * a.current_state_ltcg_num_shares
        + coef_new_stcg i * a.new_state_stcg_num_shares
        + coef_new_ltcg i * a.new_state_ltcg_num_shares
        - i.moving_costs * a.is_moving := by
  simp only [total_earnings, post_tax_capital, total_capital_gains,
    current_state_stcg, current_state_ltcg, new_state_stcg, new_state_ltcg,
    current_state_alternate_investment_gain, new_state_alternate_investment_gain,
    current_state_short_term_proceeds, new_state_short_term_proceeds,
    coef_current_stcg, coef_current_ltcg, coef_new_stcg, coef_new_ltcg]
  ring

/-- Objective of the spec, written from its own words (sections 3 and
4.1): near-term price = basis times near-term multiplier; longer-term
price = near-term price times longer-term multiplier; per-category gain
= count times (relevant price minus basis); opportunity gain = short-term
proceeds times (alternate return minus 1); maximize gross post-withholding
capital plus the four gains plus the two opportunity gains, minus each
gain times (its federal rate plus its residence rate), minus each
opportunity gain times (federal short-term rate plus that residence's
short-term rate), minus the fixed relocation cost times the indicator. -/
def spec_objective (i : ScenarioInputs) (a : Assignment) : ℚ :=
  let near_term_price := i.share_basis_price * i.rate_of_return_6m
  let longer_term_price := near_term_price * i.rate_of_return_12m
  let gain_current_short :=
    a.current_state_stcg_num_shares * (near_term_price - i.share_basis_price)
  let gain_current_long :=
    a.current_state_ltcg_num_shares * (longer_term_price - i.share_basis_price)
  let gain_new_short :=
    a.new_state_stcg_num_shares * (near_term_price - i.share_basis_price)
  let gain_new_long :=
    a.new_state_ltcg_num_shares * (longer_term_price - i.share_basis_price)
  let opportunity_current :=
    (a.current_state_stcg_num_shares * near_term_price)
      * (i.alternate_investment_rate_of_return - 1)
  let opportunity_new :=
    (a.new_state_stcg_num_shares * near_term_price)
      * (i.alternate_investment_rate_of_return - 1)
  post_tax_num_shares i * i.share_basis_price
    + (gain_current_short + gain_current_long + gain_new_short + gain_new_long)
    + (opportunity_current + opportunity_new)
    - gain_current_short * (i.federal_stcg_tax_rate + i.current_state_stcg_tax_rate)
    - gain_current_long * (i.federal_ltcg_tax_rate + i.current_state_ltcg_tax_rate)
    - gain_new_short * (i.federal_stcg_tax_rate + i.new_state_stcg_tax_rate)
    - gain_new_long * (i.federal_ltcg_tax_rate + i.new_state_ltcg_tax_rate)
    - opportunity_current * (i.federal_stcg_tax_rate + i.current_state_stcg_tax_rate)
    - opportunity_new * (i.federal_stcg_tax_rate + i.new_state_stcg_tax_rate)
    - i.moving_costs * a.is_moving

/-- Scenario of spec section 8's fifth property: basis 10, 10 shares, no
withholding, zero federal rates, short-term state rates 0.1, long-term
state rates 0.2, both multipliers 1.1, alternate return 1.1, relocation
cost 1. -/
def scenario_short_term_favored : ScenarioInputs :=
  { rate_of_return_6m := 11/10
    rate_of_return_12m := 11/10
    rsu_witholding_rate := 0
    current_state_ltcg_tax_rate := 1/5
    current_state_stcg_tax_rate := 1/10
    new_state_ltcg_tax_rate := 1/5
    new_state_stcg_tax_rate := 1/10
    federal_ltcg_tax_rate := 0
    federal_stcg_tax_rate := 0
    share_basis_price := 10
    pre_tax_num_shares := 10
    alternate_investment_rate_of_return := 11/10
    moving_costs := 1 }

/-- Assignment selling all ten shares short-term in the current state. -/
def all_stay_short : Assignment :=
  { current_state_stcg_num_shares := 10
    current_state_ltcg_num_shares := 0
    new_state_stcg_num_shares := 0
    new_state_ltcg_num_shares := 0
    is_moving := 0 }

theorem all_stay_short_feasible :
    Feasible scenario_short_term_favored all_stay_short := by
  refine ⟨?_, ?_, ?_, ?_, ?_, ?_, ?_, ?_, Or.inl rfl, ?_, ?_, ?_⟩ <;>
    norm_num [scenario_short_term_favored, all_stay_short, post_tax_num_shares]

/-- C1: for every scenario with non-negative pre-tax share count,
positive basis and positive price multipliers, every feasible assignment
of the model has its four category share counts summing exactly to the
post-withholding share count, which equals the pre-tax count times one
minus the withholding rate; the model imposes this as the equality
constraint `total_shares_sum`, not as an upper bound. -/
theorem conservation_of_shares (i : ScenarioInputs) (a : Assignment)
    (hpre : 0 ≤ i.pre_tax_num_shares) (hbasis : 0 < i.share_basis_price)
    (h6m : 0 < i.rate_of_return_6m) (h12m : 0 < i.rate_of_return_12m)
    (hf : Feasible i a) :
    a.current_state_stcg_num_shares + a.current_state_ltcg_num_shares
        + a.new_state_stcg_num_shares + a.new_state_ltcg_num_shares
      = post_tax_num_shares i
    ∧ post_tax_num_shares i
      = i.pre_tax_num_shares * (1 - i.rsu_witholding_rate) := by
  obtain ⟨-, -, -, -, -, -, -, -, -, hsum, -, -⟩ := hf
  exact ⟨hsum.symm, rfl⟩

theorem conservation_of_shares_witness :
    (0 : ℚ) ≤ scenario_short_term_favored.pre_tax_num_shares
    ∧ 0 < scenario_short_term_favored.share_basis_price
    ∧ 0 < scenario_short_term_favored.rate_of_return_6m
    ∧ 0 < scenario_short_term_favored.rate_of_return_12m
    ∧ Feasible scenario_short_term_favored all_stay_short
    ∧ (all_stay_short.current_state_stcg_num_shares
          + all_stay_short.current_state_ltcg_num_shares
          + all_stay_short.new_state_stcg_num_shares
          + all_stay_short.new_state_ltcg_num_shares
        = post_tax_num_shares scenario_short_term_favored
      ∧ post_tax_num_shares scenario_short_term_favored
        = scenario_short_term_favored.pre_tax_num_shares
            * (1 - scenario_short_term_favored.rsu_witholding_rate)) :=
  ⟨by norm_num [scenario_short_term_favored],
    by norm_num [scenario_short_term_favored],
    by norm_num [scenario_short_term_favored],
    by norm_num [scenario_short_term_favored],
    all_stay_short_feasible,
    conservation_of_shares scenario_short_term_favored all_stay_short
      (by norm_num [scenario_short_term_favored])
      (by norm_num [scenario_short_term_favored])
      (by norm_num [scenario_short_term_favored])
      (by norm_num [scenario_short_term_favored])
      all_stay_short_feasible⟩

/-- C2: in every feasible assignment of the model, the binary indicator
`is_moving` equals 1 exactly when the sum of the two new-state share
counts is strictly positive, and it equals 0 when both new-state counts
are 0; this is forced by the two coupling constraints
`new_state_shares_sold_dependency` and `new_state_shares_sold_flag`. -/
theorem is_moving_indicator_iff (i : ScenarioInputs) (a : Assignment)
    (hf : Feasible i a) :
    (a.is_moving = 1
        ↔ 0 < a.new_state_stcg_num_shares + a.new_state_ltcg_num_shares)
    ∧ (a.new_state_stcg_num_shares = 0 ∧ a.new_state_ltcg_num_shares = 0
        → a.is_moving = 0) := by
  obtain ⟨-, -, -, -, h5, -, h7, -, hm, -, hdep, hflag⟩ := hf
  constructor
  · constructor
    · intro h1
      rw [h1] at hdep
      linarith
    · intro hpos
      rcases hm with h0 | h1
      · rw [h0] at hflag
        simp at hflag
        linarith
      · exact h1
  · rintro ⟨hs, hl⟩
    rcases hm with h0 | h1
    · exact h0
    · rw [h1, hs, hl] at hdep
      norm_num at hdep

theorem is_moving_indicator_iff_witness :
    Feasible scenario_short_term_favored all_stay_short
    ∧ ((all_stay_short.is_moving = 1
          ↔ 0 < all_stay_short.new_state_stcg_num_shares
              + all_stay_short.new_state_ltcg_num_shares)
      ∧ (all_stay_short.new_state_stcg_num_shares = 0
            ∧ all_stay_short.new_state_ltcg_num_shares = 0
          → all_stay_short.is_moving = 0)) :=
  ⟨all_stay_short_feasible,
    is_moving_indicator_iff scenario_short_term_favored all_stay_short
      all_stay_short_feasible⟩

/-- C3: the objective maximized by `optimize_scenario` coincides, for
every input and every assignment, with the objective the spec describes:
post-withholding count times basis, plus the four per-category capital
gains (with near-term price = basis times the near multiplier and
longer-term price = near-term price times the longer multiplier), plus
the alternate-investment opportunity gains on the two short-term
categories, minus each gain times its federal-plus-residence rate, minus
each opportunity gain times the federal-plus-residence short-term rate,
minus the relocation cost times the indicator. -/
theorem objective_matches_spec (i : ScenarioInputs) (a : Assignment) :
    total_earnings i a = spec_objective i a := by
  simp only [total_earnings, spec_objective, post_tax_capital,
    total_capital_gains, current_state_stcg, current_state_ltcg,
    new_state_stcg, new_state_ltcg, current_state_alternate_investment_gain,
    new_state_alternate_investment_gain, current_state_short_term_proceeds,
    new_state_short_term_proceeds, short_term_price, long_term_price,
    post_tax_num_shares]
  ring

theorem all_stay_short_value :
    total_earnings scenario_short_term_favored all_stay_short = 1189/10 := by
  norm_num [total_earnings_linear, coef_current_stcg, coef_current_ltcg,
    coef_new_stcg, coef_new_ltcg, post_tax_capital, post_tax_num_shares,
    short_term_price, long_term_price, scenario_short_term_favored,
    all_stay_short]

theorem short_term_scenario_upper (b : Assignment)
    (hf : Feasible scenario_short_term_favored b) :
    total_earnings scenario_short_term_favored b ≤ 1189/10 := by
  obtain ⟨h1, h2, h3, h4, h5, h6, h7, h8, hm, hsum, hdep, hflag⟩ := hf
  have hm0 : (0 : ℚ) ≤ b.is_moving := by
    rcases hm with h | h <;> rw [h] <;> norm_num
  rw [total_earnings_linear]
  simp only [coef_current_stcg, coef_current_ltcg, coef_new_stcg,
    coef_new_ltcg, post_tax_capital, post_tax_num_shares, short_term_price,
    long_term_price, scenario_short_term_favored] at hsum ⊢
  norm_num at hsum ⊢
  linarith

theorem all_stay_short_optimal :
    IsOptimal scenario_short_term_favored all_stay_short := by
  refine ⟨all_stay_short_feasible, fun b hb => ?_⟩
  rw [all_stay_short_value]
  exact short_term_scenario_upper b hb

/-- C4, counterexample: on the spec's short-term-favored scenario the
optimal assignment does sell all ten shares short-term in the current
state, but the optimal objective value is 118.9, not 109: the objective
also credits the alternate-investment opportunity gain on the short-term
proceeds (110 times 0.1 = 11), taxed at the 10 percent short-term rate,
adding 9.9. -/
theorem short_term_scenario_objective_not_109 :
    IsOptimal scenario_short_term_favored all_stay_short
    ∧ total_earnings scenario_short_term_favored all_stay_short = 1189/10
    ∧ (1189/10 : ℚ) ≠ 109 :=
  ⟨all_stay_short_optimal, all_stay_short_value, by norm_num⟩

/-- C4, amended: on the spec's short-term-favored scenario every optimal
assignment allocates all ten shares to the current-state short-term
category, with indicator 0, and attains objective value 118.9 (the spec's
109 omits the taxed alternate-investment gain on the short-term
proceeds). -/
theorem short_term_scenario_optimal_allocation (a : Assignment)
    (ha : IsOptimal scenario_short_term_favored a) :
    a.current_state_stcg_num_shares = 10
    ∧ a.current_state_ltcg_num_shares = 0
    ∧ a.new_state_stcg_num_shares = 0
    ∧ a.new_state_ltcg_num_shares = 0
    ∧ a.is_moving = 0
    ∧ total_earnings scenario_short_term_favored a = 1189/10 := by
  obtain ⟨hf, hmax⟩ := ha
  have hge : 1189/10 ≤ total_earnings scenario_short_term_favored a := by
    rw [← all_stay_short_value]
    exact hmax all_stay_short all_stay_short_feasible
  have hle := short_term_scenario_upper a hf
  have hval : total_earnings scenario_short_term_favored a = 1189/10 :=
    le_antisymm hle hge
  obtain ⟨h1, h2, h3, h4, h5, h6, h7, h8, hm, hsum, hdep, hflag⟩ := hf
  have hm0 : (0 : ℚ) ≤ a.is_moving := by
    rcases hm with h | h <;> rw [h] <;> norm_num
  rw [total_earnings_linear] at hval
  simp only [coef_current_stcg, coef_current_ltcg, coef_new_stcg,
    coef_new_ltcg, post_tax_capital, post_tax_num_shares, short_term_price,
    long_term_price, scenario_short_term_favored] at hval hsum hflag
  norm_num at hval hsum hflag
  have hlt0 : a.current_state_ltcg_num_shares = 0 := by linarith
  have hnl0 : a.new_state_ltcg_num_shares = 0 := by linarith
  have hmv0 : a.is_moving = 0 := by linarith
  have hns0 : a.new_state_stcg_num_shares = 0 := by
    rw [hmv0] at hflag
    simp at hflag
    linarith
  refine ⟨by linarith, hlt0, hns0, hnl0, hmv0, ?_⟩
  rw [total_earnings_linear]
  simp only [coef_current_stcg, coef_current_ltcg, coef_new_stcg,
    coef_new_ltcg, post_tax_capital, post_tax_num_shares, short_term_price,
    long_term_price, scenario_short_term_favored]
  norm_num
  linarith

theorem short_term_scenario_optimal_allocation_witness :
    IsOptimal scenario_short_term_favored all_stay_short
    ∧ (all_stay_short.current_state_stcg_num_shares = 10
      ∧ all_stay_short.current_state_ltcg_num_shares = 0
      ∧ all_stay_short.new_state_stcg_num_shares = 0
      ∧ all_stay_short.new_state_ltcg_num_shares = 0
      ∧ all_stay_short.is_moving = 0
      ∧ total_earnings scenario_short_term_favored all_stay_short = 1189/10) :=
  ⟨all_stay_short_optimal,
    short_term_scenario_optimal_allocation all_stay_short all_stay_short_optimal⟩

/-- Scenario identical to `scenario_short_term_favored` except for its
two price multipliers. -/
def scenario_other_multipliers : ScenarioInputs :=
  { scenario_short_term_favored with
    rate_of_return_6m := 2
    rate_of_return_12m := 3 }

/-- C5, counterexample: the error raised on a non-optimal solver status
is the fixed string "No solution for scenario" and is identical for two
scenarios whose price multipliers differ, so it does not identify the
scenario's multipliers (only the solver status is printed, separately
from the raised exception). -/
theorem error_message_ignores_multipliers :
    scenario_short_term_favored.rate_of_return_6m
        ≠ scenario_other_multipliers.rate_of_return_6m
    ∧ scenario_short_term_favored.rate_of_return_12m
        ≠ scenario_other_multipliers.rate_of_return_12m
    ∧ check_solve scenario_short_term_favored (-1) all_stay_short
        = check_solve scenario_other_multipliers (-1) all_stay_short
    ∧ check_solve scenario_short_term_favored (-1) all_stay_short
        = Except.error "No solution for scenario" := by
  refine ⟨?_, ?_, rfl, rfl⟩ <;>
    norm_num [scenario_short_term_favored, scenario_other_multipliers]

/-- C5, amended: whenever the solver reports any status other than 1
(optimal), `optimize_scenario` raises `Exception("No solution for
scenario")` instead of returning a partial or zero-filled result; the
raised error is a fixed message that does not carry the scenario's price
multipliers. -/
theorem nonoptimal_status_raises (i : ScenarioInputs) (status : Int)
    (a : Assignment) (h : status ≠ 1) :
    check_solve i status a = Except.error "No solution for scenario" := by
  simp [check_solve, h]

theorem nonoptimal_status_raises_witness :
    ((0 : Int) ≠ 1)
    ∧ check_solve scenario_short_term_favored 0 all_stay_short
        = Except.error "No solution for scenario" :=
  ⟨by decide,
    nonoptimal_status_raises scenario_short_term_favored 0 all_stay_short
      (by decide)⟩

/-- Scenario with a negative pre-tax share count, giving a negative
post-withholding share count of -39/5. -/
def negative_shares_scenario : ScenarioInputs :=
  { scenario_short_term_favored with
    pre_tax_num_shares := -10
    rsu_witholding_rate := 11/50 }

/-- C6, counterexample: on a scenario with negative pre-tax share count
`optimize_scenario` performs no model-construction-time validation: the
model is constructed with the negative post-withholding count -39/5 as
each share variable's upper bound, below its lower bound 0, and the
error only arises at the post-solve status check, as the solve-stage
message "No solution for scenario". -/
theorem negative_bounds_model_constructed :
    (build_model negative_shares_scenario).current_state_stcg_num_shares.upBound
        = -39/5
    ∧ (build_model negative_shares_scenario).current_state_stcg_num_shares.lowBound
        = 0
    ∧ (build_model negative_shares_scenario).current_state_stcg_num_shares.upBound
        < (build_model negative_shares_scenario).current_state_stcg_num_shares.lowBound
    ∧ check_solve negative_shares_scenario (-1) all_stay_short
        = Except.error "No solution for scenario" := by
  refine ⟨?_, rfl, ?_, rfl⟩ <;>
    norm_num [build_model, post_tax_num_shares, negative_shares_scenario,
      scenario_short_term_favored]

/-- C6, amended: a scenario whose post-withholding share count is
negative yields a model with no feasible assignment (the share
variables' upper bounds are below their lower bounds), so a sound solver
can never report the optimal status and `optimize_scenario` raises the
no-solution error during the solve step; it never returns a result, in
particular none with negative allocations.  The source performs no
validation at model construction. -/
theorem negative_shares_infeasible (i : ScenarioInputs)
    (hneg : post_tax_num_shares i < 0) :
    (∀ a : Assignment, ¬ Feasible i a)
    ∧ ∀ (status : Int) (a : Assignment), SolverSound i status a →
        check_solve i status a = Except.error "No solution for scenario" := by
  have hinf : ∀ a : Assignment, ¬ Feasible i a := by
    intro a hf
    obtain ⟨h1, h2, -, -, -, -, -, -, -, -, -, -⟩ := hf
    linarith
  refine ⟨hinf, fun status a hs => ?_⟩
  have hne : status ≠ 1 := fun h => hinf a (hs h).1
  simp [check_solve, hne]

theorem negative_shares_infeasible_witness :
    post_tax_num_shares negative_shares_scenario < 0
    ∧ ((∀ a : Assignment, ¬ Feasible negative_shares_scenario a)
      ∧ ∀ (status : Int) (a : Assignment),
          SolverSound negative_shares_scenario status a →
          check_solve negative_shares_scenario status a
            = Except.error "No solution for scenario") :=
  ⟨by norm_num [post_tax_num_shares, negative_shares_scenario,
      scenario_short_term_favored],
    negative_shares_infeasible negative_shares_scenario
      (by norm_num [post_tax_num_shares, negative_shares_scenario,
        scenario_short_term_favored])⟩

/-- Residence/term categories of the four share-count variables. -/
inductive ResidenceTerm where
  | currentShort
  | currentLong
  | newShort
  | newLong
deriving DecidableEq, Repr

/-- Residence-specific tax rate of a category. -/
def state_rate (i : ScenarioInputs) : ResidenceTerm → ℚ
  | .currentShort => i.current_state_stcg_tax_rate
  | .currentLong => i.current_state_ltcg_tax_rate
  | .newShort => i.new_state_stcg_tax_rate
  | .newLong => i.new_state_ltcg_tax_rate

/-- Scenario identical to `i` except that category `c`'s residence tax
rate is `r`. -/
def set_state_rate (i : ScenarioInputs) (c : ResidenceTerm) (r : ℚ) :
    ScenarioInputs :=
  match c with
  | .currentShort => { i with current_state_stcg_tax_rate := r }
  | .currentLong => { i with current_state_ltcg_tax_rate := r }
  | .newShort => { i with new_state_stcg_tax_rate := r }
  | .newLong => { i with new_state_ltcg_tax_rate := r }

/-- Share count an assignment allocates to a category. -/
def alloc (a : Assignment) : ResidenceTerm → ℚ
  | .currentShort => a.current_state_stcg_num_shares
  | .currentLong => a.current_state_ltcg_num_shares
  | .newShort => a.new_state_stcg_num_shares
  | .newLong => a.new_state_ltcg_num_shares

/-- Per-share amount taxed at a category's rates: the capital gain per
share, plus for short-term categories the alternate-investment
opportunity gain per share. -/
def taxed_base (i : ScenarioInputs) : ResidenceTerm → ℚ
  | .currentShort =>
      (short_term_price i - i.share_basis_price)
        + short_term_price i * (i.alternate_investment_rate_of_return - 1)
  | .currentLong => long_term_price i - i.share_basis_price
  | .newShort =>
      (short_term_price i - i.share_basis_price)
        + short_term_price i * (i.alternate_investment_rate_of_return - 1)
  | .newLong => long_term_price i - i.share_basis_price

theorem feasible_set_state_rate (i : ScenarioInputs) (c : ResidenceTerm)
    (r : ℚ) (a : Assignment) :
    Feasible (set_state_rate i c r) a ↔ Feasible i a := by
  cases c <;> exact Iff.rfl

theorem total_earnings_set_state_rate (i : ScenarioInputs)
    (c : ResidenceTerm) (r : ℚ) (a : Assignment) :
    total_earnings (set_state_rate i c r) a
      = total_earnings i a
        - alloc a c * taxed_base i c * (r - state_rate i c) := by
  cases i
  cases c <;>
    (simp only [set_state_rate, alloc, taxed_base, state_rate,
      total_earnings, post_tax_capital, total_capital_gains,
      current_state_stcg, current_state_ltcg, new_state_stcg,
      new_state_ltcg, current_state_alternate_investment_gain,
      new_state_alternate_investment_gain,
      current_state_short_term_proceeds, new_state_short_term_proceeds,
      short_term_price, long_term_price, post_tax_num_shares]
     ring)

/-- C7, amended: raising one residence/term category's tax rate, all
else fixed, never increases that category's optimal share count,
provided the category's per-share taxed amount (capital gain per share
plus, for short-term categories, the per-share alternate-investment
opportunity gain) is positive.  When that amount is negative — a
per-share loss — the higher rate acts as a larger loss offset and can
strictly increase the category's optimal allocation. -/
theorem allocation_monotone_in_own_rate (i : ScenarioInputs)
    (c : ResidenceTerm) (r : ℚ) (a1 a2 : Assignment)
    (hr : state_rate i c < r) (hbase : 0 < taxed_base i c)
    (h1 : IsOptimal i a1) (h2 : IsOptimal (set_state_rate i c r) a2) :
    alloc a2 c ≤ alloc a1 c := by
  obtain ⟨hf1, hmax1⟩ := h1
  obtain ⟨hf2, hmax2⟩ := h2
  have hf2i : Feasible i a2 := (feasible_set_state_rate i c r a2).mp hf2
  have hf1i : Feasible (set_state_rate i c r) a1 :=
    (feasible_set_state_rate i c r a1).mpr hf1
  have hA : total_earnings i a2 ≤ total_earnings i a1 := hmax1 a2 hf2i
  have hB := hmax2 a1 hf1i
  rw [total_earnings_set_state_rate, total_earnings_set_state_rate] at hB
  have ht : alloc a2 c * taxed_base i c * (r - state_rate i c)
      ≤ alloc a1 c * taxed_base i c * (r - state_rate i c) := by
    linarith
  have hd : 0 < r - state_rate i c := sub_pos.mpr hr
  have hmul : alloc a2 c * taxed_base i c ≤ alloc a1 c * taxed_base i c :=
    le_of_mul_le_mul_right ht hd
  exact le_of_mul_le_mul_right hmul hbase

theorem higher_long_rate_upper (b : Assignment)
    (hf : Feasible
      (set_state_rate scenario_short_term_favored ResidenceTerm.currentLong (1/2)) b) :
    total_earnings
        (set_state_rate scenario_short_term_favored ResidenceTerm.currentLong (1/2)) b
      ≤ 1189/10 := by
  have hfi : Feasible scenario_short_term_favored b :=
    (feasible_set_state_rate _ _ _ b).mp hf
  have hup := short_term_scenario_upper b hfi
  have halloc : 0 ≤ alloc b ResidenceTerm.currentLong := by
    obtain ⟨-, -, h3, -, -, -, -, -, -, -, -, -⟩ := hfi
    exact h3
  rw [total_earnings_set_state_rate]
  have hbase : taxed_base scenario_short_term_favored ResidenceTerm.currentLong
      = 21/10 := by
    norm_num [taxed_base, long_term_price, short_term_price,
      scenario_short_term_favored]
  have hrate : state_rate scenario_short_term_favored ResidenceTerm.currentLong
      = 1/5 := rfl
  rw [hbase, hrate]
  nlinarith

theorem all_stay_short_optimal_higher_long_rate :
    IsOptimal
      (set_state_rate scenario_short_term_favored ResidenceTerm.currentLong (1/2))
      all_stay_short := by
  constructor
  · exact (feasible_set_state_rate _ _ _ _).mpr all_stay_short_feasible
  · intro b hb
    have hval : total_earnings
        (set_state_rate scenario_short_term_favored ResidenceTerm.currentLong (1/2))
        all_stay_short = 1189/10 := by
      rw [total_earnings_set_state_rate, all_stay_short_value]
      norm_num [alloc, all_stay_short]
    rw [hval]
    exact higher_long_rate_upper b hb

theorem allocation_monotone_in_own_rate_witness :
    state_rate scenario_short_term_favored ResidenceTerm.currentLong < 1/2
    ∧ 0 < taxed_base scenario_short_term_favored ResidenceTerm.currentLong
    ∧ IsOptimal scenario_short_term_favored all_stay_short
    ∧ IsOptimal
        (set_state_rate scenario_short_term_favored ResidenceTerm.currentLong (1/2))
        all_stay_short
    ∧ alloc all_stay_short ResidenceTerm.currentLong
        ≤ alloc all_stay_short ResidenceTerm.currentLong :=
  ⟨by norm_num [state_rate, scenario_short_term_favored],
    by norm_num [taxed_base, long_term_price, short_term_price,
      scenario_short_term_favored],
    all_stay_short_optimal,
    all_stay_short_optimal_higher_long_rate,
    allocation_monotone_in_own_rate scenario_short_term_favored
      ResidenceTerm.currentLong (1/2) all_stay_short all_stay_short
      (by norm_num [state_rate, scenario_short_term_favored])
      (by norm_num [taxed_base, long_term_price, short_term_price,
        scenario_short_term_favored])
      all_stay_short_optimal
      all_stay_short_optimal_higher_long_rate⟩

/-- Scenario in which shares are sold at a loss: the share price halves
over the first period and then stays flat, the alternate investment
returns nothing extra, relocating costs 100, and the current state taxes
long-term gains at one half while every other rate is zero. -/
def loss_scenario : ScenarioInputs :=
  { rate_of_return_6m := 1/2
    rate_of_return_12m := 1
    rsu_witholding_rate := 0
    current_state_ltcg_tax_rate := 1/2
    current_state_stcg_tax_rate := 0
    new_state_ltcg_tax_rate := 0
    new_state_stcg_tax_rate := 0
    federal_ltcg_tax_rate := 0
    federal_stcg_tax_rate := 0
    share_basis_price := 10
    pre_tax_num_shares := 10
    alternate_investment_rate_of_return := 1
    moving_costs := 100 }

/-- Assignment selling all ten shares long-term in the current state. -/
def all_stay_long : Assignment :=
  { current_state_stcg_num_shares := 0
    current_state_ltcg_num_shares := 10
    new_state_stcg_num_shares := 0
    new_state_ltcg_num_shares := 0
    is_moving := 0 }

theorem all_stay_long_feasible_loss : Feasible loss_scenario all_stay_long := by
  refine ⟨?_, ?_, ?_, ?_, ?_, ?_, ?_, ?_, Or.inl rfl, ?_, ?_, ?_⟩ <;>
    norm_num [loss_scenario, all_stay_long, post_tax_num_shares]

theorem loss_scenario_upper (b : Assignment) (hf : Feasible loss_scenario b) :
    total_earnings loss_scenario b ≤ 75 := by
  obtain ⟨h1, h2, h3, h4, h5, h6, h7, h8, hm, hsum, hdep, hflag⟩ := hf
  have hm0 : (0 : ℚ) ≤ b.is_moving := by
    rcases hm with h | h <;> rw [h] <;> norm_num
  rw [total_earnings_linear]
  simp only [coef_current_stcg, coef_current_ltcg, coef_new_stcg,
    coef_new_ltcg, post_tax_capital, post_tax_num_shares, short_term_price,
    long_term_price, loss_scenario] at hsum ⊢
  norm_num at hsum ⊢
  linarith

theorem all_stay_long_optimal_loss : IsOptimal loss_scenario all_stay_long := by
  constructor
  · exact all_stay_long_feasible_loss
  · intro b hb
    have hval : total_earnings loss_scenario all_stay_long = 75 := by
      norm_num [total_earnings_linear, coef_current_stcg, coef_current_ltcg,
        coef_new_stcg, coef_new_ltcg, post_tax_capital, post_tax_num_shares,
        short_term_price, long_term_price, loss_scenario, all_stay_long]
    rw [hval]
    exact loss_scenario_upper b hb

theorem loss_bumped_upper (b : Assignment)
    (hf : Feasible
      (set_state_rate loss_scenario ResidenceTerm.currentShort (3/5)) b) :
    total_earnings
        (set_state_rate loss_scenario ResidenceTerm.currentShort (3/5)) b
      ≤ 80 := by
  have hfi : Feasible loss_scenario b := (feasible_set_state_rate _ _ _ b).mp hf
  obtain ⟨h1, h2, h3, h4, h5, h6, h7, h8, hm, hsum, hdep, hflag⟩ := hfi
  have hm0 : (0 : ℚ) ≤ b.is_moving := by
    rcases hm with h | h <;> rw [h] <;> norm_num
  rw [total_earnings_set_state_rate, total_earnings_linear]
  simp only [coef_current_stcg, coef_current_ltcg, coef_new_stcg,
    coef_new_ltcg, post_tax_capital, post_tax_num_shares, short_term_price,
    long_term_price, loss_scenario, taxed_base, state_rate, alloc] at hsum ⊢
  norm_num at hsum ⊢
  linarith

theorem all_stay_short_optimal_loss_bumped :
    IsOptimal (set_state_rate loss_scenario ResidenceTerm.currentShort (3/5))
      all_stay_short := by
  constructor
  · refine (feasible_set_state_rate _ _ _ _).mpr
      ⟨?_, ?_, ?_, ?_, ?_, ?_, ?_, ?_, Or.inl rfl, ?_, ?_, ?_⟩ <;>
      norm_num [loss_scenario, all_stay_short, post_tax_num_shares]
  · intro b hb
    have hval : total_earnings
        (set_state_rate loss_scenario ResidenceTerm.currentShort (3/5))
        all_stay_short = 80 := by
      rw [total_earnings_set_state_rate]
      norm_num [total_earnings_linear, coef_current_stcg, coef_current_ltcg,
        coef_new_stcg, coef_new_ltcg, post_tax_capital, post_tax_num_shares,
        short_term_price, long_term_price, loss_scenario, all_stay_short,
        taxed_base, state_rate, alloc]
    rw [hval]
    exact loss_bumped_upper b hb

/-- C7, counterexample: in `loss_scenario` the share price is below
basis, and raising the current-state short-term rate from 0 to 3/5 moves
the optimal allocation of that same category from 0 shares to all 10
shares — the higher rate offsets more of the per-share loss — so the
claimed weak decrease fails. -/
theorem allocation_increases_in_own_rate_on_loss :
    state_rate loss_scenario ResidenceTerm.currentShort < 3/5
    ∧ IsOptimal loss_scenario all_stay_long
    ∧ IsOptimal (set_state_rate loss_scenario ResidenceTerm.currentShort (3/5))
        all_stay_short
    ∧ ¬ (alloc all_stay_short ResidenceTerm.currentShort
          ≤ alloc all_stay_long ResidenceTerm.currentShort) :=
  ⟨by norm_num [state_rate, loss_scenario],
    all_stay_long_optimal_loss,
    all_stay_short_optimal_loss_bumped,
    by norm_num [alloc, all_stay_short, all_stay_long]⟩

/-- Scenario identical to `i` except for the moving costs. -/
def set_moving_costs (i : ScenarioInputs) (m : ℚ) : ScenarioInputs :=
  { i with moving_costs := m }

/-- Assignment selling the whole post-withholding pool short-term in the
current state. -/
def stay_all (i : ScenarioInputs) : Assignment :=
  { current_state_stcg_num_shares := post_tax_num_shares i
    current_state_ltcg_num_shares := 0
    new_state_stcg_num_shares := 0
    new_state_ltcg_num_shares := 0
    is_moving := 0 }

theorem stay_all_feasible (i : ScenarioInputs)
    (h : 0 ≤ post_tax_num_shares i) : Feasible i (stay_all i) := by
  refine ⟨h, le_refl _, le_refl _, h, le_refl _, h, le_refl _, h,
    Or.inl rfl, ?_, ?_, ?_⟩ <;> simp [stay_all]

theorem total_earnings_set_moving_costs (i : ScenarioInputs) (m : ℚ)
    (a : Assignment) :
    total_earnings (set_moving_costs i m) a
      = post_tax_capital i
        + coef_current_stcg i * a.current_state_stcg_num_shares
        + coef_current_ltcg i * a.current_state_ltcg_num_shares
        + coef_new_stcg i * a.new_state_stcg_num_shares
        + coef_new_ltcg i * a.new_state_ltcg_num_shares
        - m * a.is_moving :=
  total_earnings_linear (set_moving_costs i m) a

theorem mul_le_max_coef (c x P : ℚ) (hx : 0 ≤ x) (hxP : x ≤ P) :
    c * x ≤ max c 0 * P := by
  rcases le_total c 0 with hc | hc
  · rw [max_eq_right hc, zero_mul]
    calc c * x ≤ 0 * x := mul_le_mul_of_nonneg_right hc hx
    _ = 0 := zero_mul x
  · rw [max_eq_left hc]
    exact mul_le_mul_of_nonneg_left hxP hc

/-- C8: for every scenario with a non-negative post-withholding share
count there is a moving-cost threshold above which every optimal
assignment allocates nothing to the new state and has indicator 0. -/
theorem high_moving_costs_force_staying (i : ScenarioInputs)
    (hpost : 0 ≤ post_tax_num_shares i) :
    ∃ M : ℚ, ∀ cost : ℚ, M < cost → ∀ a : Assignment,
      IsOptimal (set_moving_costs i cost) a →
      a.new_state_stcg_num_shares = 0 ∧ a.new_state_ltcg_num_shares = 0
        ∧ a.is_moving = 0 := by
  refine ⟨max (coef_current_stcg i) 0 * post_tax_num_shares i
    + max (coef_current_ltcg i) 0 * post_tax_num_shares i
    + max (coef_new_stcg i) 0 * post_tax_num_shares i
    + max (coef_new_ltcg i) 0 * post_tax_num_shares i
    - coef_current_stcg i * post_tax_num_shares i, ?_⟩
  rintro cost hcost a ⟨hf, hmax⟩
  have hfi : Feasible i a := hf
  obtain ⟨h1, h2, h3, h4, h5, h6, h7, h8, hm, hsum, hdep, hflag⟩ := hfi
  rcases hm with hm0 | hm1
  · rw [hm0, zero_mul] at hflag
    exact ⟨le_antisymm (by linarith) h5, le_antisymm (by linarith) h7, hm0⟩
  · exfalso
    have hstay : Feasible (set_moving_costs i cost) (stay_all i) :=
      stay_all_feasible i hpost
    have hobj := hmax (stay_all i) hstay
    have hval : total_earnings (set_moving_costs i cost) (stay_all i)
        = post_tax_capital i
          + coef_current_stcg i * post_tax_num_shares i := by
      rw [total_earnings_set_moving_costs]
      simp [stay_all]
    rw [hval, total_earnings_set_moving_costs, hm1] at hobj
    have hb1 := mul_le_max_coef (coef_current_stcg i)
      a.current_state_stcg_num_shares (post_tax_num_shares i) h1 h2
    have hb2 := mul_le_max_coef (coef_current_ltcg i)
      a.current_state_ltcg_num_shares (post_tax_num_shares i) h3 h4
    have hb3 := mul_le_max_coef (coef_new_stcg i)
      a.new_state_stcg_num_shares (post_tax_num_shares i) h5 h6
    have hb4 := mul_le_max_coef (coef_new_ltcg i)
      a.new_state_ltcg_num_shares (post_tax_num_shares i) h7 h8
    linarith

theorem high_moving_costs_force_staying_witness :
    0 ≤ post_tax_num_shares scenario_short_term_favored
    ∧ ∃ M : ℚ, ∀ cost : ℚ, M < cost → ∀ a : Assignment,
        IsOptimal (set_moving_costs scenario_short_term_favored cost) a →
        a.new_state_stcg_num_shares = 0 ∧ a.new_state_ltcg_num_shares = 0
          ∧ a.is_moving = 0 :=
  ⟨by norm_num [post_tax_num_shares, scenario_short_term_favored],
    high_moving_costs_force_staying scenario_short_term_favored
      (by norm_num [post_tax_num_shares, scenario_short_term_favored])⟩

/-- C9: in every feasible assignment of the model the total routed
through the new state is either exactly 0 or at least 1: the indicator
is integral in [0,1], so the two coupling constraints rule out every
total strictly between 0 and 1. -/
theorem new_state_total_zero_or_at_least_one (i : ScenarioInputs)
    (a : Assignment) (hf : Feasible i a) :
    a.new_state_stcg_num_shares + a.new_state_ltcg_num_shares = 0
    ∨ 1 ≤ a.new_state_stcg_num_shares + a.new_state_ltcg_num_shares := by
  obtain ⟨-, -, -, -, h5, -, h7, -, hm, -, hdep, hflag⟩ := hf
  rcases hm with hm0 | hm1
  · left
    rw [hm0, zero_mul] at hflag
    linarith
  · right
    rw [hm1] at hdep
    exact hdep

theorem new_state_total_zero_or_at_least_one_witness :
    Feasible scenario_short_term_favored all_stay_short
    ∧ (all_stay_short.new_state_stcg_num_shares
          + all_stay_short.new_state_ltcg_num_shares = 0
      ∨ 1 ≤ all_stay_short.new_state_stcg_num_shares
          + all_stay_short.new_state_ltcg_num_shares) :=
  ⟨all_stay_short_feasible,
    new_state_total_zero_or_at_least_one scenario_short_term_favored
      all_stay_short all_stay_short_feasible⟩

/-- C10: if the post-withholding share count is 0, every feasible
assignment has all four category counts and the indicator equal to 0,
and every optimal assignment attains objective value 0. -/
theorem zero_post_tax_shares_zero_objective (i : ScenarioInputs)
    (hz : post_tax_num_shares i = 0) :
    (∀ a : Assignment, Feasible i a →
      a.current_state_stcg_num_shares = 0
      ∧ a.current_state_ltcg_num_shares = 0
      ∧ a.new_state_stcg_num_shares = 0
      ∧ a.new_state_ltcg_num_shares = 0
      ∧ a.is_moving = 0)
    ∧ ∀ a : Assignment, IsOptimal i a → total_earnings i a = 0 := by
  have hall : ∀ a : Assignment, Feasible i a →
      a.current_state_stcg_num_shares = 0
      ∧ a.current_state_ltcg_num_shares = 0
      ∧ a.new_state_stcg_num_shares = 0
      ∧ a.new_state_ltcg_num_shares = 0
      ∧ a.is_moving = 0 := by
    intro a hf
    obtain ⟨h1, h2, h3, h4, h5, h6, h7, h8, hm, hsum, hdep, hflag⟩ := hf
    rw [hz] at h2 h4 h6 h8
    have e3 : a.new_state_stcg_num_shares = 0 := le_antisymm h6 h5
    have e4 : a.new_state_ltcg_num_shares = 0 := le_antisymm h8 h7
    have e5 : a.is_moving = 0 := by
      rcases hm with h | h
      · exact h
      · rw [h, e3, e4] at hdep
        norm_num at hdep
    exact ⟨le_antisymm h2 h1, le_antisymm h4 h3, e3, e4, e5⟩
  refine ⟨hall, ?_⟩
  rintro a ⟨hf, -⟩
  obtain ⟨e1, e2, e3, e4, e5⟩ := hall a hf
  rw [total_earnings_linear, e1, e2, e3, e4, e5]
  simp [post_tax_capital, hz]

/-- Scenario with no shares vested at all. -/
def zero_shares_scenario : ScenarioInputs :=
  { scenario_short_term_favored with pre_tax_num_shares := 0 }

theorem zero_post_tax_shares_zero_objective_witness :
    post_tax_num_shares zero_shares_scenario = 0
    ∧ ((∀ a : Assignment, Feasible zero_shares_scenario a →
          a.current_state_stcg_num_shares = 0
          ∧ a.current_state_ltcg_num_shares = 0
          ∧ a.new_state_stcg_num_shares = 0
          ∧ a.new_state_ltcg_num_shares = 0
          ∧ a.is_moving = 0)
      ∧ ∀ a : Assignment, IsOptimal zero_shares_scenario a →
          total_earnings zero_shares_scenario a = 0) :=
  ⟨by norm_num [post_tax_num_shares, zero_shares_scenario,
      scenario_short_term_favored],
    zero_post_tax_shares_zero_objective zero_shares_scenario
      (by norm_num [post_tax_num_shares, zero_shares_scenario,
        scenario_short_term_favored])⟩

end Optimize
